import Mathlib

/-
Verification of the Option / Result / typed-map functional-programming
utility library.

Modelling conventions (shallow embedding of the TypeScript source):

* A TypeScript `Nullable<T>` slot (`T | null`) is embedded as `Option V`:
  `Option.none` plays the role of the `null` sentinel, and the payload type
  `V` structurally excludes the sentinel (the spec states that `T` is never
  allowed to be the sentinel marker itself).
* The optional parameter `value?: T` of `createResult` / `ok` stores
  `T | undefined`; the stored slot is likewise embedded as `Option V`
  with `Option.none` standing for the omitted / `undefined` payload.
  The non-null assertion `value!` in `createResult.match` is a runtime
  no-op, so the match arms receive the raw slot of type `Option V`.
* Thrown JavaScript errors are embedded with `Except JsError`.
* `Promise<A>` is embedded as `A` itself: the specification's concurrency
  model is single-threaded, cooperative, run-to-completion sequencing, so
  an awaited promise is observationally its settled value.
* The dynamic JavaScript value universe (needed by `toOption`, which
  branches on `null` / `undefined` / `typeof value === 'string'`) is the
  inductive type `JSVal`.
* The native JavaScript `Map` backing the typed-map adapter is embedded as
  an association list with key-unique updates.
-/

set_option autoImplicit true

namespace TS

/-- Dynamic JavaScript values, as far as the library inspects them:
`null`, `undefined`, booleans, numbers, strings and objects. The library
never looks inside an object (it only tests `=== null`, `=== undefined`
and `typeof value === 'string'`), so objects are embedded as opaque
reference identities; `vobj 0` stands for the empty object literal. -/
inductive JSVal : Type where
  | vnull : JSVal
  | vundefined : JSVal
  | vbool : Bool → JSVal
  | vnum : Int → JSVal
  | vstr : String → JSVal
  | vobj : Nat → JSVal
  deriving DecidableEq, Repr

/-- A JavaScript `Error` object, reduced to its message. -/
structure JsError : Type where
  message : String
  deriving DecidableEq, Repr

/-- Embedding of `Promise<A>`: cooperative run-to-completion sequencing
means an awaited promise is observationally its settled value. -/
abbrev Promise (α : Type u) : Type u := α

/-- Source `identity` helper: the single-argument identity function. -/
def identity (a : α) : α := a

/-- Source `noop` helper: the no-op function. -/
def noop : Unit → Unit := fun _ => ()

/-- Source `Promise.resolve`. -/
def Promise.resolve (a : α) : Promise α := a

/-- Source `promise.then(f)` under the identity embedding of promises. -/
def Promise.thenDo (p : Promise α) (f : α → Promise β) : Promise β := f p

/-- Variant arms for pattern matching on an `Option<T>`
(source interface `IOptionMatchPatterns`). -/
structure IOptionMatchPatterns (V : Type u) (R : Type v) : Type (max u v) where
  None : Unit → R
  Some : V → R

/-- The Option container. The source `createOption` closes over a
`Nullable<T>` slot and the boolean `isSome = value !== null`; the slot
alone determines every observable behaviour, so the embedding stores it. -/
structure OptionC (V : Type u) : Type u where
  value : Option V
  deriving DecidableEq, Repr

/-- Source `createOption`: builds an Option from a nullable slot. -/
def createOption (value : Option V) : OptionC V := ⟨value⟩

/-- Source `createOption.match`: dispatches on `isSome` (that is, on
whether the slot differs from the `null` sentinel) and hands the
narrowed value to the `Some` arm. -/
def OptionC.matchO (o : OptionC V) (patterns : IOptionMatchPatterns V R) : R :=
  match o.value with
  | Option.some t => patterns.Some t
  | Option.none => patterns.None ()

/-- Source `some(value)`: an Option in the "some" state containing
`value`. The payload type parameter cannot mention the sentinel, so the
stored slot is always non-null. -/
def someO (value : V) : OptionC V := createOption (Option.some value)

/-- Source `none()`: an Option in the "none" state (slot holds the
`null` sentinel). -/
def noneO : OptionC V := createOption Option.none

/-- Source `throws(errorFactory)`: returns a function that throws the
constructed error when invoked. Thrown errors are embedded as the
`Except.error` branch. -/
def throwsErr (errorFactory : Unit → JsError) : Unit → Except JsError α :=
  fun _ => Except.error (errorFactory ())

/-- Source `createOption.map`. -/
def OptionC.map (o : OptionC V) (f : V → U) : OptionC U :=
  o.matchO { Some := fun t => someO (f t), None := fun _ => noneO }

/-- Source `createOption.mapAsync` (`f(t).then(some)`). -/
def OptionC.mapAsync (o : OptionC V) (f : V → Promise U) : Promise (OptionC U) :=
  o.matchO
    { Some := fun t => (f t).thenDo (fun u => someO u),
      None := fun _ => Promise.resolve noneO }

/-- Source `createOption.chain` (monadic bind): the `Some` arm is `f`
itself, so the produced Option is returned directly. -/
def OptionC.chain (o : OptionC V) (f : V → OptionC U) : OptionC U :=
  o.matchO { Some := f, None := fun _ => noneO }

/-- Source `createOption.chainAsync`. -/
def OptionC.chainAsync (o : OptionC V) (f : V → Promise (OptionC U)) :
    Promise (OptionC U) :=
  o.matchO { Some := f, None := fun _ => Promise.resolve noneO }

/-- Source `createOption.filter`: on a satisfied predicate the arm
returns `this`, the receiver itself. -/
def OptionC.filter (o : OptionC V) (f : V → Bool) : OptionC V :=
  o.matchO { Some := fun t => if f t then o else noneO, None := fun _ => noneO }

/-- Source `createOption.filterAsync` (`f(t).then(r => r ? this : none())`). -/
def OptionC.filterAsync (o : OptionC V) (f : V → Promise Bool) :
    Promise (OptionC V) :=
  o.matchO
    { Some := fun t => (f t).thenDo (fun r => if r then o else noneO),
      None := fun _ => Promise.resolve noneO }

/-- Source `createOption.forEach`: effect on the `Some` value, no-op on
`None`. Effects on the outside world are not themselves modelled; the
embedding records the returned unit. -/
def OptionC.forEach (o : OptionC V) (f : V → Unit) : Unit :=
  o.matchO { Some := f, None := noop }

/-- Source `createOption.forEachAsync`. -/
def OptionC.forEachAsync (o : OptionC V) (f : V → Promise Unit) : Promise Unit :=
  o.matchO { Some := f, None := fun _ => Promise.resolve () }

/-- Source `createOption.tap`: runs `forEach` and returns `this`. -/
def OptionC.tap (o : OptionC V) (f : V → Unit) : OptionC V :=
  let _ := o.forEach f
  o

/-- Source `createOption.tapAsync` (`this.forEachAsync(f).then(() => this)`). -/
def OptionC.tapAsync (o : OptionC V) (f : V → Promise Unit) : Promise (OptionC V) :=
  (o.forEachAsync f).thenDo (fun _ => o)

/-- Source `createOption.unwrap`: the value on `Some`, a thrown error on
`None`. -/
def OptionC.unwrap (o : OptionC V) : Except JsError V :=
  o.matchO
    { Some := fun t => Except.ok (identity t),
      None := throwsErr (fun _ => ⟨"Cannot unwrap an Option of \"None\""⟩) }

/-- Source `createOption.unwrapOr`. -/
def OptionC.unwrapOr (o : OptionC V) (u : V) : V :=
  o.matchO { Some := identity, None := fun _ => u }

/-- Source `createOption.unwrapOrElse`. -/
def OptionC.unwrapOrElse (o : OptionC V) (f : Unit → V) : V :=
  o.matchO { Some := identity, None := f }

/-- Source `createOption.unwrapOrElseAsync`. -/
def OptionC.unwrapOrElseAsync (o : OptionC V) (f : Unit → Promise V) : Promise V :=
  o.matchO { Some := identity, None := f }

/-- Source `createOption.isNone` (`!isSome`, where `isSome` is
`value !== null`). -/
def OptionC.isNone (o : OptionC V) : Bool := !o.value.isSome

/-- Source `createOption.isSome` (`value !== null`). -/
def OptionC.isSome (o : OptionC V) : Bool := o.value.isSome

/-- Source `typeof value === 'string' && value.length === 0` test used by
`toOption` and `Option.of`. -/
def isEmptyStringJS : JSVal → Bool
  | JSVal.vstr s => s.length == 0
  | _ => false

/-- Source `toOption`: lifts a dynamic value into an Option; `null`,
`undefined` and the empty string go to `None`, everything else to
`Some`. -/
def toOption (value : JSVal) : OptionC JSVal :=
  if value = JSVal.vnull ∨ value = JSVal.vundefined then noneO
  else if isEmptyStringJS value then noneO
  else someO value

/-- Source Option extension `of` (`src/lib/core/option/extensions/of.ts`):
same classification as `toOption`. -/
def ofExt (value : JSVal) : OptionC JSVal :=
  if value = JSVal.vnull ∨ value = JSVal.vundefined then noneO
  else if isEmptyStringJS value then noneO
  else someO value

/-- Variant arms for pattern matching on a `Result<E, T>`
(source interface `IResultMatchPatterns`). The arms receive the raw
stored slots: the source passes `value!` / `error!`, a static cast that
is a runtime no-op, so an `Ok` built by a payload-less `ok()` hands the
`Ok` arm its absent (`undefined`) payload. -/
structure IResultMatchPatterns (E : Type u) (V : Type v) (R : Type w) :
    Type (max u v w) where
  Ok : Option V → R
  Err : Option E → R

/-- The Result container: the `isErr` discriminant plus the two raw
slots closed over by the source `createResult(isErr, value?, error?)`. -/
structure ResultC (E : Type u) (V : Type v) : Type (max u v) where
  isErr : Bool
  value : Option V
  error : Option E
  deriving DecidableEq, Repr

/-- Source `createResult`. -/
def createResult (isErr : Bool) (value : Option V) (error : Option E) :
    ResultC E V :=
  ⟨isErr, value, error⟩

/-- Source `createResult.match`
(`isErr ? patterns.Err(error!) : patterns.Ok(value!)`). -/
def ResultC.matchR (r : ResultC E V) (patterns : IResultMatchPatterns E V R) : R :=
  if r.isErr then patterns.Err r.error else patterns.Ok r.value

/-- Source `ok(value?)`: a Result in the `Ok` state; the parameter is
optional, `Option.none` embeds the omitted (`undefined`) payload of the
void-success form `ok()`. -/
def okR (value : Option V) : ResultC E V :=
  createResult false value Option.none

/-- Source `err(error)`: a Result in the `Err` state. -/
def errR (error : E) : ResultC E V :=
  createResult true Option.none (Option.some error)

/-- The source arm `Err: err` applies the `err` factory to the raw error
slot handed over by `match`; this is that application, storing the raw
slot back unchanged. -/
def errRaw (error : Option E) : ResultC E V :=
  createResult true Option.none error

/-- The source arm `Ok: (t) => ok(f(t))` applies `ok` to a value that may
itself be the absent payload; this is that application. -/
def okRaw (value : Option V) : ResultC E V :=
  createResult false value Option.none

/-- Source `createResult.map` (`Ok: (t) => ok(f(t)), Err: err`); `f` acts
on the raw, possibly-absent payload domain. -/
def ResultC.map (r : ResultC E V) (f : Option V → Option U) : ResultC E U :=
  r.matchR { Ok := fun t => okRaw (f t), Err := fun e => errRaw e }

/-- Source `createResult.mapAsync`. -/
def ResultC.mapAsync (r : ResultC E V) (f : Option V → Promise (Option U)) :
    Promise (ResultC E U) :=
  r.matchR
    { Ok := fun t => (f t).thenDo (fun u => okRaw u),
      Err := fun e => Promise.resolve (errRaw e) }

/-- Source `createResult.mapErr` (`Ok: ok, Err: (e) => err(f(e))`). -/
def ResultC.mapErr (r : ResultC E V) (f : Option E → Option U) : ResultC U V :=
  r.matchR { Ok := fun t => okRaw t, Err := fun e => errRaw (f e) }

/-- Source `createResult.mapErrAsync`. -/
def ResultC.mapErrAsync (r : ResultC E V) (f : Option E → Promise (Option U)) :
    Promise (ResultC U V) :=
  r.matchR
    { Ok := fun t => Promise.resolve (okRaw t),
      Err := fun e => (f e).thenDo (fun u => errRaw u) }

/-- Source `createResult.chain` (`Ok: f, Err: err`): the `Ok` arm is `f`
itself, the `Err` slot passes through unchanged. -/
def ResultC.chain (r : ResultC E V) (f : Option V → ResultC E U) : ResultC E U :=
  r.matchR { Ok := f, Err := fun e => errRaw e }

/-- Source `createResult.chainAsync`. -/
def ResultC.chainAsync (r : ResultC E V) (f : Option V → Promise (ResultC E U)) :
    Promise (ResultC E U) :=
  r.matchR { Ok := f, Err := fun e => Promise.resolve (errRaw e) }

/-- Source `createResult.unwrap`: the raw `Ok` payload on `Ok`, a thrown
error on `Err`. -/
def ResultC.unwrap (r : ResultC E V) : Except JsError (Option V) :=
  r.matchR
    { Ok := fun t => Except.ok (identity t),
      Err := fun _ => Except.error ⟨"Cannot unwrap in error state."⟩ }

/-- Source `createResult.unwrapOr`. -/
def ResultC.unwrapOr (r : ResultC E V) (t : Option V) : Option V :=
  r.matchR { Ok := identity, Err := fun _ => t }

/-- Source `createResult.unwrapOrElse`. -/
def ResultC.unwrapOrElse (r : ResultC E V) (f : Unit → Option V) : Option V :=
  r.matchR { Ok := identity, Err := fun _ => f () }

/-- Source `createResult.unwrapOrElseAsync`. -/
def ResultC.unwrapOrElseAsync (r : ResultC E V) (f : Unit → Promise (Option V)) :
    Promise (Option V) :=
  r.matchR { Ok := identity, Err := fun _ => f () }

/-- Source `createResult.unwrapErr`: the raw `Err` payload on `Err`, a
thrown error on `Ok`. -/
def ResultC.unwrapErr (r : ResultC E V) : Except JsError (Option E) :=
  r.matchR
    { Ok := fun _ => Except.error ⟨"Cannot unwrap error of Ok"⟩,
      Err := fun e => Except.ok (identity e) }

/-- Source `createResult.isOk` (`!isErr`). The source method `isErr()`
returns the stored flag itself, so the structure field `ResultC.isErr`
plays both roles. -/
def ResultC.isOk (r : ResultC E V) : Bool := !r.isErr

/-- Source failure record `ValueAbsent` (`{ type: 'ValueAbsent' }`),
the error payload of the Option-to-Result conversion. -/
structure ValueAbsent : Type where
  type : String
  deriving DecidableEq, Repr

/-- Source factory `ValueNotFound()` producing a `ValueAbsent` record. -/
def ValueNotFound : ValueAbsent := ⟨"ValueAbsent"⟩

/-- Source Option extension `toResult`
(`o.match({ Some: ok, None: () => err(ValueNotFound()) })`). -/
def OptionC.toResult (o : OptionC V) : ResultC ValueAbsent V :=
  o.matchO
    { Some := fun t => okR (Option.some t),
      None := fun _ => errR ValueNotFound }

/-- Source Result extension `toOption`
(`result.match({ Ok: some, Err: none })`): the `some` factory is applied
to the raw `Ok` slot, so the produced Option ranges over the
possibly-absent payload domain. -/
def ResultC.toOption (r : ResultC E V) : OptionC (Option V) :=
  r.matchR { Ok := fun t => someO t, Err := fun _ => noneO }

/-- Source failure record `KeyNotFound` (`{ type: 'KeyNotFound' }`),
the error payload of the typed map's `delete`. -/
structure KeyNotFound : Type where
  type : String
  deriving DecidableEq, Repr

/-- Source factory `KeyNotFound()` producing a `KeyNotFound` record. -/
def KeyNotFound.make : KeyNotFound := ⟨"KeyNotFound"⟩

/-- Source `structurePipe`
(`args.reduce((acc, f) => f(acc), self)`): a left fold of the supplied
unary transformations over the starting structure. -/
def structurePipe (self : α) (args : List (α → α)) : α :=
  args.foldl (fun acc f => f acc) self

/-- The one-operator overload of `IPipeable.pipe`: the reduce of
`structurePipe` unrolled over a single transformation. -/
def pipe1 (self : α) (o1 : α → β) : β := o1 self

/-- The two-operator overload of `IPipeable.pipe`: the reduce of
`structurePipe` unrolled left to right over two transformations. -/
def pipe2 (self : α) (o1 : α → β) (o2 : β → γ) : γ := o2 (o1 self)

/-- The three-operator overload of `IPipeable.pipe`. -/
def pipe3 (self : α) (o1 : α → β) (o2 : β → γ) (o3 : γ → δ) : δ :=
  o3 (o2 (o1 self))

end TS

/- Standalone operator forms of the Option methods: the members of the
source `Option` operators object (`const Option = { map: (f) => (o) =>
o.map(f), ... }`, including the `toResult` operator extension and the
`of` extension). Each definition is the source member with its
first-stage arguments applied. -/
namespace TS.OptionOperators

/-- Operator `map`. -/
def map (f : V → U) : OptionC V → OptionC U := fun o => o.map f

/-- Operator `mapAsync`. -/
def mapAsync (f : V → Promise U) : OptionC V → Promise (OptionC U) :=
  fun o => o.mapAsync f

/-- Operator `chain`. -/
def chain (f : V → OptionC U) : OptionC V → OptionC U := fun o => o.chain f

/-- Operator `chainAsync`. -/
def chainAsync (f : V → Promise (OptionC U)) : OptionC V → Promise (OptionC U) :=
  fun o => o.chainAsync f

/-- Operator `filter`. -/
def filter (f : V → Bool) : OptionC V → OptionC V := fun o => o.filter f

/-- Operator `filterAsync`. -/
def filterAsync (f : V → Promise Bool) : OptionC V → Promise (OptionC V) :=
  fun o => o.filterAsync f

/-- Operator `forEach`. -/
def forEach (f : V → Unit) : OptionC V → Unit := fun o => o.forEach f

/-- Operator `forEachAsync`. -/
def forEachAsync (f : V → Promise Unit) : OptionC V → Promise Unit :=
  fun o => o.forEachAsync f

/-- Operator `tap`. -/
def tap (f : V → Unit) : OptionC V → OptionC V := fun o => o.tap f

/-- Operator `tapAsync`. -/
def tapAsync (f : V → Promise Unit) : OptionC V → Promise (OptionC V) :=
  fun o => o.tapAsync f

/-- Operator `unwrap` (`() => (o) => o.unwrap()`, applied). -/
def unwrap : OptionC V → Except JsError V := fun o => o.unwrap

/-- Operator `unwrapOr`. -/
def unwrapOr (t : V) : OptionC V → V := fun o => o.unwrapOr t

/-- Operator `unwrapOrElse`. -/
def unwrapOrElse (f : Unit → V) : OptionC V → V := fun o => o.unwrapOrElse f

/-- Operator `unwrapOrElseAsync`. -/
def unwrapOrElseAsync (f : Unit → Promise V) : OptionC V → Promise V :=
  fun o => o.unwrapOrElseAsync f

/-- Operator `isNone` (`() => (o) => o.isNone()`, applied). -/
def isNone : OptionC V → Bool := fun o => o.isNone

/-- Operator `isSome` (`() => (o) => o.isSome()`, applied). -/
def isSome : OptionC V → Bool := fun o => o.isSome

/-- Operator extension `toResult` (`() => (o) => o.match({...})`, applied). -/
def toResult : OptionC V → ResultC ValueAbsent V := fun o => o.toResult

/-- Extension member `of` of the operators object. -/
def of : JSVal → OptionC JSVal := ofExt

end TS.OptionOperators

/- Standalone operator forms of the Result methods: the members of the
source `Result` operators object in `pipeable.ts`, plus the `toOption`
operator extension. -/
namespace TS.ResultOperators

/-- Operator `map`. -/
def map (f : Option V → Option U) : ResultC E V → ResultC E U :=
  fun r => r.map f

/-- Operator `mapAsync`. -/
def mapAsync (f : Option V → Promise (Option U)) :
    ResultC E V → Promise (ResultC E U) :=
  fun r => r.mapAsync f

/-- Operator `mapErr`. -/
def mapErr (f : Option E → Option U) : ResultC E V → ResultC U V :=
  fun r => r.mapErr f

/-- Operator `mapErrAsync`. -/
def mapErrAsync (f : Option E → Promise (Option U)) :
    ResultC E V → Promise (ResultC U V) :=
  fun r => r.mapErrAsync f

/-- Operator `chain`. -/
def chain (f : Option V → ResultC E U) : ResultC E V → ResultC E U :=
  fun r => r.chain f

/-- Operator `chainAsync`. -/
def chainAsync (f : Option V → Promise (ResultC E U)) :
    ResultC E V → Promise (ResultC E U) :=
  fun r => r.chainAsync f

/-- Operator `match` (`(patterns) => (r) => r.match(patterns)`). -/
def matchOp (patterns : IResultMatchPatterns E V R) : ResultC E V → R :=
  fun r => r.matchR patterns

/-- Operator `unwrap` (`() => (r) => r.unwrap()`, applied). -/
def unwrap : ResultC E V → Except JsError (Option V) := fun r => r.unwrap

/-- Operator `unwrapOr`. -/
def unwrapOr (t : Option V) : ResultC E V → Option V := fun r => r.unwrapOr t

/-- Operator `unwrapOrElse`. -/
def unwrapOrElse (f : Unit → Option V) : ResultC E V → Option V :=
  fun r => r.unwrapOrElse f

/-- Operator `unwrapOrElseAsync`. -/
def unwrapOrElseAsync (f : Unit → Promise (Option V)) :
    ResultC E V → Promise (Option V) :=
  fun r => r.unwrapOrElseAsync f

/-- Operator `isErr` (`() => (r) => r.isErr()`, applied). -/
def isErr : ResultC E V → Bool := fun r => r.isErr

/-- Operator `isOk` (`() => (r) => r.isOk()`, applied). -/
def isOk : ResultC E V → Bool := fun r => r.isOk

/-- Operator extension `toOption` (`() => (r) => r.match({...})`, applied). -/
def toOption : ResultC E V → OptionC (Option V) := fun r => r.toOption

end TS.ResultOperators

namespace TS

/-- The native JavaScript `Map` backing the typed-map adapter: an
association list whose update operations keep keys unique. -/
abbrev NativeMap (K : Type u) (V : Type v) : Type (max u v) := List (K × V)

/-- Native `map.get(key)`: the stored value when the key is present,
`undefined` (here `Option.none`) when absent. -/
def nmGet [DecidableEq K] (map : NativeMap K V) (key : K) : Option V :=
  Option.map Prod.snd (List.find? (fun p => decide (p.1 = key)) map)

/-- Native `map.has(key)`. -/
def nmHas [DecidableEq K] (map : NativeMap K V) (key : K) : Bool :=
  map.any (fun p => decide (p.1 = key))

/-- Native `map.delete(key)`: removes the key's entry (a native map holds
at most one entry per key) and reports whether the key was present.
Returns the updated backing store together with the boolean result. -/
def nmDelete [DecidableEq K] (map : NativeMap K V) (key : K) :
    NativeMap K V × Bool :=
  (map.filter (fun p => !(decide (p.1 = key))), nmHas map key)

/-- Native `map.set(key, value)`: inserts or overwrites. -/
def nmSet [DecidableEq K] (map : NativeMap K V) (key : K) (value : V) :
    NativeMap K V :=
  if nmHas map key then
    map.map (fun p => if p.1 = key then (key, value) else p)
  else map ++ [(key, value)]

/-- Native `map.size`. -/
def nmSize (map : NativeMap K V) : Nat := map.length

/-- Source `typedMap.get` (`toOption(map.get(key))`): the native lookup
yields `TValue | undefined`, which in the dynamic value domain is `JSVal`
itself with absence as `undefined`; the result is then lifted through
`toOption`. -/
def tmGet [DecidableEq K] (map : NativeMap K JSVal) (key : K) : OptionC JSVal :=
  toOption ((nmGet map key).getD JSVal.vundefined)

/-- Source `typedMap.delete`
(`map.delete(key) ? ok() : err(KeyNotFound())`): returns the updated
backing store and the Result; the `Ok` payload is the omitted void
payload of `ok()`. -/
def tmDelete [DecidableEq K] (map : NativeMap K V) (key : K) :
    NativeMap K V × ResultC KeyNotFound Unit :=
  let d := nmDelete map key
  (d.1, if d.2 then okR Option.none else errR KeyNotFound.make)

/-- Source `typedMap.has` (`map.has(key)`). -/
def tmHas [DecidableEq K] (map : NativeMap K V) (key : K) : Bool :=
  nmHas map key

/-- Source `typedMap.set` (`map.set(key, value); return this`). -/
def tmSet [DecidableEq K] (map : NativeMap K V) (key : K) (value : V) :
    NativeMap K V :=
  nmSet map key value

/-- Source `typedMap.size` (`map.size`). -/
def tmSize (map : NativeMap K V) : Nat := nmSize map

/-- A JavaScript string has length zero exactly when it is the empty
string. -/
theorem string_length_eq_zero_iff (s : String) : s.length = 0 ↔ s = "" := by
  cases s with
  | mk data =>
    constructor
    · intro h
      have hd : data = [] := by simpa [String.length] using h
      simp [hd]
    · intro h
      rw [h]
      rfl

/-- Characterisation of `toOption`: the three sentinel inputs (`null`,
`undefined`, the empty string) go to `None`, every other dynamic value
to `Some` of itself. -/
theorem toOption_spec (v : JSVal) :
    toOption v =
      (if v = JSVal.vnull ∨ v = JSVal.vundefined ∨ v = JSVal.vstr "" then noneO
       else someO v) := by
  cases v with
  | vnull => decide
  | vundefined => decide
  | vbool b => rfl
  | vnum n => rfl
  | vobj o => rfl
  | vstr s =>
    by_cases h : s = ""
    · subst h; decide
    · have hlen : (s.length == 0) = false := by
        have hne : ¬s.length = 0 := fun hh => h ((string_length_eq_zero_iff s).mp hh)
        simpa using hne
      simp [toOption, isEmptyStringJS, h, hlen]

end TS

/-- C1: for every value `x`, `some(x)` satisfies `isSome() == true` and
`isNone() == false`; `none()` satisfies `isSome() == false` and
`isNone() == true`; and on every Option the two predicates are mutually
exclusive and exhaustive. -/
theorem c1_some_none_predicates :
    (∀ (V : Type) (x : V),
      (TS.someO x).isSome = true ∧ (TS.someO x).isNone = false) ∧
    (∀ (V : Type),
      (TS.noneO : TS.OptionC V).isSome = false ∧
      (TS.noneO : TS.OptionC V).isNone = true) ∧
    (∀ (V : Type) (o : TS.OptionC V),
      o.isNone = !o.isSome ∧
      (o.isSome = true ∨ o.isNone = true) ∧
      ¬(o.isSome = true ∧ o.isNone = true)) := by
  refine ⟨fun V x => ⟨rfl, rfl⟩, fun V => ⟨rfl, rfl⟩, fun V o => ⟨rfl, ?_, ?_⟩⟩
  · cases hv : o.value <;> simp [TS.OptionC.isSome, TS.OptionC.isNone, hv]
  · cases hv : o.value <;> simp [TS.OptionC.isSome, TS.OptionC.isNone, hv]

/-- C2: `toOption` (and the `of` extension, which implements the same
classification) sends exactly `null`, `undefined` and the empty string
to `None` and every other input — including `0`, `false`, non-empty
strings and the empty object — to `Some` of that input. -/
theorem c2_toOption_classification :
    (∀ v : TS.JSVal,
      TS.toOption v =
        (if v = TS.JSVal.vnull ∨ v = TS.JSVal.vundefined ∨ v = TS.JSVal.vstr ""
         then TS.noneO else TS.someO v)) ∧
    (∀ v : TS.JSVal, TS.ofExt v = TS.toOption v) ∧
    (TS.toOption TS.JSVal.vnull).isNone = true ∧
    (TS.toOption TS.JSVal.vundefined).isNone = true ∧
    (TS.toOption (TS.JSVal.vstr "")).isNone = true ∧
    (TS.toOption (TS.JSVal.vnum 0)).isSome = true ∧
    (TS.toOption (TS.JSVal.vbool false)).isSome = true ∧
    (TS.toOption (TS.JSVal.vobj 0)).isSome = true :=
  ⟨TS.toOption_spec, fun _ => rfl, rfl, rfl, by decide, rfl, rfl, rfl⟩

/-- C3 (counterexample): the typed map routes `get` through `toOption`,
so a key that is present with the empty string as its value comes back
as `None`, not `Some("")` — refuting the claim for every value the map
can hold. -/
theorem c3_get_counterexample :
    TS.tmHas [(("k" : String), TS.JSVal.vstr "")] "k" = true ∧
    TS.tmGet [(("k" : String), TS.JSVal.vstr "")] "k" = TS.noneO ∧
    TS.tmGet [(("k" : String), TS.JSVal.vstr "")] "k" ≠
      TS.someO (TS.JSVal.vstr "") := by
  refine ⟨by decide, by decide, by decide⟩

/-- C3 (amended): `get` returns `Some(v)` when the key is present with
value `v` and `v` is none of `null`, `undefined`, the empty string; it
returns `None` when the key is absent, and also `None` when the present
value is one of those three sentinel inputs (it returns `toOption` of
the stored value in every present case). -/
theorem c3_get_amended (K : Type) [DecidableEq K]
    (m : TS.NativeMap K TS.JSVal) (k : K) :
    (TS.nmGet m k = Option.none → TS.tmGet m k = TS.noneO) ∧
    (∀ v, TS.nmGet m k = Option.some v →
      TS.tmGet m k = TS.toOption v ∧
      (¬(v = TS.JSVal.vnull ∨ v = TS.JSVal.vundefined ∨ v = TS.JSVal.vstr "") →
        TS.tmGet m k = TS.someO v)) := by
  constructor
  · intro h
    simp [TS.tmGet, h]
    rfl
  · intro v h
    constructor
    · simp [TS.tmGet, h]
    · intro hv
      simp [TS.tmGet, h, TS.toOption_spec v, hv]

/-- C3 (witness for the amended theorem). -/
theorem c3_get_amended_witness :
    TS.tmGet [(("a" : String), TS.JSVal.vnum 7)] "a" =
      TS.someO (TS.JSVal.vnum 7) ∧
    TS.tmGet ([] : TS.NativeMap String TS.JSVal) "a" = TS.noneO :=
  ⟨((c3_get_amended String [(("a" : String), TS.JSVal.vnum 7)] "a").2
      (TS.JSVal.vnum 7) (by decide)).2 (by decide),
   (c3_get_amended String ([] : TS.NativeMap String TS.JSVal) "a").1 (by decide)⟩

/-- C4: chain is associative from `some(x)` for Option and from `ok(x)`
for Result: chaining `f` then `g` equals chaining
`v => f(v).chain(g)`. -/
theorem c4_chain_associativity :
    (∀ (V U W : Type) (x : V) (f : V → TS.OptionC U) (g : U → TS.OptionC W),
      ((TS.someO x).chain f).chain g =
        (TS.someO x).chain (fun v => (f v).chain g)) ∧
    (∀ (E V U W : Type) (x : V) (f : Option V → TS.ResultC E U)
        (g : Option U → TS.ResultC E W),
      ((TS.okR (Option.some x)).chain f).chain g =
        (TS.okR (Option.some x)).chain (fun v => (f v).chain g)) :=
  ⟨fun _ _ _ _ _ _ => rfl, fun _ _ _ _ _ _ _ => rfl⟩

/-- C5: unwrap on the wrong variant fails with a thrown error and on the
matching variant returns the payload: `ok(2).unwrap() == 2`;
`err(e).unwrap()` throws; `err(e).unwrapErr() == e`; `ok(2).unwrapErr()`
throws; `some(x).unwrap() == x`; `none().unwrap()` throws — never a
silent default. -/
theorem c5_unwrap_mismatch_fails :
    ((TS.okR (Option.some (2 : Int)) : TS.ResultC String Int).unwrap =
      Except.ok (Option.some 2)) ∧
    (∀ (E V : Type) (e : E),
      (TS.errR e : TS.ResultC E V).unwrap =
        Except.error ⟨"Cannot unwrap in error state."⟩) ∧
    (∀ (E V : Type) (e : E),
      (TS.errR e : TS.ResultC E V).unwrapErr = Except.ok (Option.some e)) ∧
    ((TS.okR (Option.some (2 : Int)) : TS.ResultC String Int).unwrapErr =
      Except.error ⟨"Cannot unwrap error of Ok"⟩) ∧
    (∀ (V : Type) (x : V), (TS.someO x).unwrap = Except.ok x) ∧
    (∀ (V : Type),
      (TS.noneO : TS.OptionC V).unwrap =
        Except.error ⟨"Cannot unwrap an Option of \"None\""⟩) :=
  ⟨rfl, fun _ _ _ => rfl, fun _ _ _ => rfl, rfl, fun _ _ => rfl, fun _ => rfl⟩

/-- C6: `Result.toOption` sends `Ok(5)` to `Some(5)` and any `Err` to
`None`, discarding the error payload; `Option.toResult` sends `Some(5)`
to `Ok(5)` and `None` to an `Err` tagged `ValueAbsent`. -/
theorem c6_conversions_roundtrip :
    ((TS.okR (Option.some (5 : Int)) : TS.ResultC TS.ValueAbsent Int).toOption =
      TS.someO (Option.some 5)) ∧
    (∀ (E V : Type) (e : E), (TS.errR e : TS.ResultC E V).toOption = TS.noneO) ∧
    ((TS.someO (5 : Int)).toResult = TS.okR (Option.some 5)) ∧
    ((TS.noneO : TS.OptionC Int).toResult = TS.errR TS.ValueNotFound) ∧
    TS.ValueNotFound.type = "ValueAbsent" :=
  ⟨rfl, fun _ _ _ => rfl, rfl, rfl, rfl⟩

/-- C7: when `o` is `Some(v)` and the predicate holds at `v`, `filter`
returns the receiver itself (and `filterAsync` resolves to the receiver
itself) — the embedding's rendering of the identity-preservation
contract; when the predicate fails the result is `None`, and filtering
`None` gives `None`. -/
theorem c7_filter_identity :
    (∀ (V : Type) (o : TS.OptionC V) (p : V → Bool) (q : V → TS.Promise Bool)
        (v : V), o.value = Option.some v → p v = true → q v = true →
      o.filter p = o ∧ o.filterAsync q = o) ∧
    (∀ (V : Type) (x : V) (p : V → Bool),
      p x = false → (TS.someO x).filter p = TS.noneO) ∧
    (∀ (V : Type) (p : V → Bool),
      (TS.noneO : TS.OptionC V).filter p = TS.noneO) := by
  refine ⟨?_, ?_, fun V p => rfl⟩
  · intro V o p q v hv hp hq
    constructor
    · simp [TS.OptionC.filter, TS.OptionC.matchO, hv, hp]
    · simp [TS.OptionC.filterAsync, TS.OptionC.matchO, TS.Promise.thenDo, hv, hq]
  · intro V x p hp
    simp [TS.OptionC.filter, TS.OptionC.matchO, TS.someO, TS.createOption, hp]

/-- C7 (witness): a satisfied filter on `Some(3)` hands back the
receiver. -/
theorem c7_filter_identity_witness :
    (TS.someO (3 : Int)).value = Option.some 3 ∧
    (TS.someO (3 : Int)).filter (fun v => decide (0 < v)) = TS.someO 3 :=
  ⟨rfl,
   (c7_filter_identity.1 Int (TS.someO 3) (fun v => decide (0 < v))
      (fun v => decide (0 < v)) 3 rfl (by decide) (by decide)).1⟩

/-- C8: `delete` on an existing key returns `Ok` (with the omitted void
payload) and afterwards `has` is false; on a missing key it returns an
`Err` tagged `KeyNotFound` and leaves the contents and size
unchanged. -/
theorem c8_delete_semantics (K V : Type) [DecidableEq K]
    (m : TS.NativeMap K V) (k : K) :
    (TS.nmHas m k = true →
      (TS.tmDelete m k).2 = TS.okR Option.none ∧
      TS.tmHas (TS.tmDelete m k).1 k = false) ∧
    (TS.nmHas m k = false →
      (TS.tmDelete m k).2 = TS.errR TS.KeyNotFound.make ∧
      (TS.tmDelete m k).1 = m ∧
      TS.tmSize (TS.tmDelete m k).1 = TS.tmSize m) ∧
    TS.KeyNotFound.make.type = "KeyNotFound" := by
  refine ⟨?_, ?_, rfl⟩
  · intro h
    refine ⟨by simp [TS.tmDelete, TS.nmDelete, h], ?_⟩
    simp [TS.tmDelete, TS.nmDelete, TS.tmHas, TS.nmHas, List.any_eq_true,
      List.mem_filter]
  · intro h
    have hall : ∀ p ∈ m, ¬(p.1 = k) := by
      intro p hp hpk
      have hh : TS.nmHas m k = true := by
        unfold TS.nmHas
        rw [List.any_eq_true]
        exact ⟨p, hp, by simpa using hpk⟩
      rw [hh] at h
      exact Bool.noConfusion h
    have hfix : (TS.tmDelete m k).1 = m :=
      List.filter_eq_self.mpr (fun a ha => by simpa using hall a ha)
    exact ⟨by simp [TS.tmDelete, TS.nmDelete, h], hfix, by rw [hfix]⟩

/-- C8 (witness): deleting a present key and a missing key on a concrete
one-entry map. -/
theorem c8_delete_semantics_witness :
    ((TS.tmDelete [(("a" : String), (1 : Int))] "a").2 = TS.okR Option.none ∧
      TS.tmHas (TS.tmDelete [(("a" : String), (1 : Int))] "a").1 "a" = false) ∧
    ((TS.tmDelete [(("a" : String), (1 : Int))] "b").2 =
        TS.errR TS.KeyNotFound.make ∧
      (TS.tmDelete [(("a" : String), (1 : Int))] "b").1 =
        [(("a" : String), (1 : Int))] ∧
      TS.tmSize (TS.tmDelete [(("a" : String), (1 : Int))] "b").1 =
        TS.tmSize [(("a" : String), (1 : Int))]) :=
  ⟨(c8_delete_semantics String Int [(("a" : String), (1 : Int))] "a").1
      (by decide),
   ((c8_delete_semantics String Int [(("a" : String), (1 : Int))] "b").2).1
      (by decide)⟩

/-- C9: every supported operation agrees between its method-call form and
its standalone-operator-in-a-pipe form, and `pipe` applies the supplied
transformations left to right. -/
theorem c9_operator_pipe_equivalence :
    (∀ (V U : Type) (f : V → U) (o : TS.OptionC V),
      TS.pipe1 o (TS.OptionOperators.map f) = o.map f) ∧
    (∀ (V U : Type) (f : V → TS.Promise U) (o : TS.OptionC V),
      TS.pipe1 o (TS.OptionOperators.mapAsync f) = o.mapAsync f) ∧
    (∀ (V U : Type) (f : V → TS.OptionC U) (o : TS.OptionC V),
      TS.pipe1 o (TS.OptionOperators.chain f) = o.chain f) ∧
    (∀ (V U : Type) (f : V → TS.Promise (TS.OptionC U)) (o : TS.OptionC V),
      TS.pipe1 o (TS.OptionOperators.chainAsync f) = o.chainAsync f) ∧
    (∀ (V : Type) (f : V → Bool) (o : TS.OptionC V),
      TS.pipe1 o (TS.OptionOperators.filter f) = o.filter f) ∧
    (∀ (V : Type) (f : V → TS.Promise Bool) (o : TS.OptionC V),
      TS.pipe1 o (TS.OptionOperators.filterAsync f) = o.filterAsync f) ∧
    (∀ (V : Type) (f : V → Unit) (o : TS.OptionC V),
      TS.pipe1 o (TS.OptionOperators.forEach f) = o.forEach f ∧
      TS.pipe1 o (TS.OptionOperators.tap f) = o.tap f) ∧
    (∀ (V : Type) (f : V → TS.Promise Unit) (o : TS.OptionC V),
      TS.pipe1 o (TS.OptionOperators.forEachAsync f) = o.forEachAsync f ∧
      TS.pipe1 o (TS.OptionOperators.tapAsync f) = o.tapAsync f) ∧
    (∀ (V : Type) (o : TS.OptionC V),
      TS.pipe1 o TS.OptionOperators.unwrap = o.unwrap ∧
      TS.pipe1 o TS.OptionOperators.isNone = o.isNone ∧
      TS.pipe1 o TS.OptionOperators.isSome = o.isSome ∧
      TS.pipe1 o TS.OptionOperators.toResult = o.toResult) ∧
    (∀ (V : Type) (t : V) (f : Unit → V) (o : TS.OptionC V),
      TS.pipe1 o (TS.OptionOperators.unwrapOr t) = o.unwrapOr t ∧
      TS.pipe1 o (TS.OptionOperators.unwrapOrElse f) = o.unwrapOrElse f ∧
      TS.pipe1 o (TS.OptionOperators.unwrapOrElseAsync f) =
        o.unwrapOrElseAsync f) ∧
    (∀ (E V U : Type) (f : Option V → Option U) (r : TS.ResultC E V),
      TS.pipe1 r (TS.ResultOperators.map f) = r.map f) ∧
    (∀ (E V U : Type) (f : Option V → TS.Promise (Option U)) (r : TS.ResultC E V),
      TS.pipe1 r (TS.ResultOperators.mapAsync f) = r.mapAsync f) ∧
    (∀ (E V U : Type) (f : Option E → Option U)
        (g : Option E → TS.Promise (Option U)) (r : TS.ResultC E V),
      TS.pipe1 r (TS.ResultOperators.mapErr f) = r.mapErr f ∧
      TS.pipe1 r (TS.ResultOperators.mapErrAsync g) = r.mapErrAsync g) ∧
    (∀ (E V U : Type) (f : Option V → TS.ResultC E U)
        (g : Option V → TS.Promise (TS.ResultC E U)) (r : TS.ResultC E V),
      TS.pipe1 r (TS.ResultOperators.chain f) = r.chain f ∧
      TS.pipe1 r (TS.ResultOperators.chainAsync g) = r.chainAsync g) ∧
    (∀ (E V R : Type) (patterns : TS.IResultMatchPatterns E V R) (r : TS.ResultC E V),
      TS.pipe1 r (TS.ResultOperators.matchOp patterns) = r.matchR patterns) ∧
    (∀ (E V : Type) (r : TS.ResultC E V),
      TS.pipe1 r TS.ResultOperators.unwrap = r.unwrap ∧
      TS.pipe1 r TS.ResultOperators.isErr = r.isErr ∧
      TS.pipe1 r TS.ResultOperators.isOk = r.isOk ∧
      TS.pipe1 r TS.ResultOperators.toOption = r.toOption) ∧
    (∀ (E V : Type) (t : Option V) (f : Unit → Option V) (r : TS.ResultC E V),
      TS.pipe1 r (TS.ResultOperators.unwrapOr t) = r.unwrapOr t ∧
      TS.pipe1 r (TS.ResultOperators.unwrapOrElse f) = r.unwrapOrElse f ∧
      TS.pipe1 r (TS.ResultOperators.unwrapOrElseAsync f) =
        r.unwrapOrElseAsync f) ∧
    (∀ (α β γ : Type) (self : α) (o1 : α → β) (o2 : β → γ),
      TS.pipe2 self o1 o2 = o2 (TS.pipe1 self o1)) ∧
    (∀ (α : Type) (self : α) (f : α → α) (fs : List (α → α)),
      TS.structurePipe self (f :: fs) = TS.structurePipe (f self) fs) ∧
    (∀ (α : Type) (self : α) (fs gs : List (α → α)),
      TS.structurePipe self (fs ++ gs) =
        TS.structurePipe (TS.structurePipe self fs) gs) := by
  refine ⟨?_, ?_, ?_, ?_, ?_, ?_, ?_, ?_, ?_, ?_, ?_, ?_, ?_, ?_, ?_, ?_, ?_,
    ?_, ?_, ?_⟩ <;> intros <;>
    first
      | rfl
      | exact ⟨rfl, rfl⟩
      | exact ⟨rfl, rfl, rfl⟩
      | exact ⟨rfl, rfl, rfl, rfl⟩
      | simp [TS.structurePipe, List.foldl_append]

/-- C10: the payload-omitted success factory yields a usable void
success: `ok()` is `Ok`, its `unwrap` returns the absent payload without
throwing, and across all Results `unwrap` fails exactly on the `Err`
variant. -/
theorem c10_ok_void_success :
    (∀ (E V : Type),
      (TS.okR Option.none : TS.ResultC E V).isOk = true ∧
      (TS.okR Option.none : TS.ResultC E V).unwrap = Except.ok Option.none) ∧
    (∀ (E V : Type) (r : TS.ResultC E V),
      r.unwrap.isOk = r.isOk ∧ (r.unwrap.isOk = false ↔ r.isErr = true)) := by
  refine ⟨fun E V => ⟨rfl, rfl⟩, fun E V r => ?_⟩
  rcases r with ⟨flag, v, e⟩
  cases flag <;> simp [TS.ResultC.unwrap, TS.ResultC.matchR, TS.ResultC.isOk,
    Except.isOk, Except.toBool]
